import Mathlib

/-
Verification of the ThemeController and LocalizationLoader of a personal
website (script.js), as a shallow embedding.  DOM state touched by the
script is modelled explicitly; every event handler becomes a Lean function
from environment readings and the current state to the next state.
-/

namespace PersonalSite

/-- One selectable option (anchor) of the theme dropdown: its
`data-theme` value and whether its icon currently carries the
filled visual emphasis (font variation FILL 1 = `true`, FILL 0 = `false`). -/
structure ThemeOption where
  dataTheme : String
  fill : Bool
deriving Repr, DecidableEq

/-- The DOM / browser state that script.js mutates for the theme switcher:
the document root data-theme attribute, the indicator glyph text and its
fill, the dropdown options, the localStorage `theme` key, the toolbar
classes `visible` and `show-dropdown`, and the `lastScrollY` baseline. -/
@[ext]
structure St where
  dataTheme : String
  themeIconText : String
  themeIconFill : Bool
  options : List ThemeOption
  storage : Option String
  visible : Bool
  showDropdown : Bool
  lastScrollY : Nat
deriving Repr, DecidableEq

/-- Embeds the loop `themeDropdown.querySelectorAll(...).forEach(icon =>
icon.style.fontVariationSettings = FILL 0)` (script.js lines 197-199):
every option icon is set unfilled. -/
def clearFills (l : List ThemeOption) : List ThemeOption :=
  l.map (fun o => { o with fill := false })

/-- Embeds `themeDropdown.querySelector(a[data-theme=...])` followed by
setting FILL 1 on the found icon (script.js lines 201-203): the first
option whose `data-theme` equals the theme is set filled; if none
matches, nothing changes. -/
def setFirstFill : List ThemeOption → String → List ThemeOption
  | [], _ => []
  | o :: rest, t =>
      if o.dataTheme = t then { o with fill := true } :: rest
      else o :: setFirstFill rest t

/-- Embeds `applyTheme(theme, animate)` (script.js lines 176-208).
`prefersDark` is the reading of the `prefers-color-scheme: dark` media
query at call time.  The `animate` flag only triggers `animateIcon`,
which adds a one-shot CSS animation class removed at `animationend`;
that transient class is not part of the persistent state modelled here. -/
def applyTheme (theme : String) (prefersDark animate : Bool) (st : St) : St :=
  let st1 :=
    if theme = "system" then
      { st with
        dataTheme := if prefersDark then "dark" else "light",
        themeIconText := "brightness_auto" }
    else
      { st with
        dataTheme := theme,
        themeIconText := if theme = "dark" then "dark_mode" else "light_mode" }
  let st2 := { st1 with storage := some theme }
  let st3 := { st2 with themeIconFill := true }
  { st3 with options := setFirstFill (clearFills st3.options) theme }

/-- Embeds `localStorage.getItem(theme) || system` (script.js lines 212
and 257): JS `||` falls through exactly when the left side is falsy,
i.e. `null` (key absent) or the empty string. -/
def orSystem : Option String → String
  | none => "system"
  | some s => if s = "" then "system" else s

/-- Embeds the `prefers-color-scheme` change listener (script.js lines
211-216): re-reads the stored preference, and re-applies the theme only
when it is `system`. -/
def onOsChange (prefersDark : Bool) (st : St) : St :=
  if orSystem st.storage = "system" then applyTheme "system" prefersDark true st
  else st

/-- Embeds the load-time initialization (script.js lines 256-258):
`savedTheme = localStorage.getItem(theme) || system; applyTheme(savedTheme, false)`. -/
def initTheme (prefersDark : Bool) (st : St) : St :=
  applyTheme (orSystem st.storage) prefersDark false st

/-- `scrollThreshold` (script.js line 264). -/
def scrollThreshold : Nat := 100

/-- Embeds `handleScroll` (script.js lines 266-284).  `mobileMatches` is
the reading of `mobileMediaQuery.matches` and `currentScrollY` the
reading of `window.scrollY` at event time. -/
def handleScroll (mobileMatches : Bool) (currentScrollY : Nat) (st : St) : St :=
  let st1 :=
    if mobileMatches then
      if currentScrollY > st.lastScrollY ∧ currentScrollY > scrollThreshold then
        { st with visible := true }
      else if currentScrollY < st.lastScrollY ∨ currentScrollY ≤ scrollThreshold then
        { st with visible := false, showDropdown := false }
      else st
    else
      { st with visible := false }
  { st1 with lastScrollY := currentScrollY }

/-- Embeds `handleResize` (script.js lines 286-292): a resize that leaves
the viewport at desktop width forces the switcher hidden and the
dropdown closed. -/
def handleResize (mobileMatches : Bool) (st : St) : St :=
  if ¬ mobileMatches then { st with visible := false, showDropdown := false }
  else st

/-- The two window events the floating-toolbar controller listens to
(script.js lines 294-295). -/
inductive Ev where
  | scroll (currentScrollY : Nat)
  | resize

/-- Dispatch of a window event to its handler. -/
def step (mobileMatches : Bool) : Ev → St → St
  | .scroll y => handleScroll mobileMatches y
  | .resize => handleResize mobileMatches

/- ------------------------------------------------------------------
Localization (script.js lines 29-65)
------------------------------------------------------------------ -/

/-- The parsed `languages.json`: language code to (text key to string),
as association lists so lookups are executable. -/
abbrev Translations := List (String × List (String × String))

/-- Embeds `translations[language] && translations[language][key]` as the
composed lookup; the outer value, a JSON object, is truthy whenever
present. -/
def lookupKey (t : Translations) (language key : String) : Option String :=
  (t.lookup language).bind (fun m => m.lookup key)

/-- An element carrying a `data-translate` attribute: its key and its
current innerHTML. -/
structure Elem where
  key : String
  content : String
deriving Repr, DecidableEq

/-- The document as the localization code sees it: the root `lang`
attribute and the tagged elements in document order. -/
structure Doc where
  lang : String
  elems : List Elem
deriving Repr, DecidableEq

/-- The body of the `forEach` loop of `setLanguage` (script.js lines
31-36): replace the element's content when `translations[language][key]`
is truthy (present and, being a string, non-empty); otherwise leave it. -/
def translateElem (translations : Translations) (language : String) (el : Elem) : Elem :=
  match lookupKey translations language el.key with
  | some v => if v ≠ "" then { el with content := v } else el
  | none => el

/-- Embeds `setLanguage` (script.js lines 29-37): sets the document
language, then runs `translateElem` over every tagged element. -/
def setLanguage (language : String) (translations : Translations) (doc : Doc) : Doc :=
  { lang := language,
    elems := doc.elems.map (translateElem translations language) }

/-- `traditionalChineseLocales` (script.js line 48). -/
def traditionalChineseLocales : List String :=
  ["zh-Hant", "zh-Hant-TW", "zh-Hant-MO", "zh-Hant-HK", "zh-TW"]

/-- `simplifiedChineseLocales` (script.js line 49). -/
def simplifiedChineseLocales : List String :=
  ["zh-Hans", "zh-Hans-CN", "zh-Hans-SG", "zh-CN"]

/-- Embeds the locale normalization of `fetchTranslations` (script.js
lines 51-55). -/
def canonicalLocale (userLanguage : String) : String :=
  if userLanguage ∈ traditionalChineseLocales then "zh-TW"
  else if userLanguage ∈ simplifiedChineseLocales then "zh-CN"
  else userLanguage

/-- Embeds `translations[userLanguage] ? userLanguage : en` (script.js
line 58) applied after normalization. -/
def chooseLanguage (translations : Translations) (navLanguage : String) : String :=
  let userLanguage := canonicalLocale navLanguage
  if (translations.lookup userLanguage).isSome then userLanguage else "en"

/-- Embeds `fetchTranslations` (script.js lines 43-63).  The awaited
fetch-and-parse is modelled as an `Except` result; the catch branch only
logs, so on error the document is returned unchanged. -/
def fetchTranslations (result : Except String Translations)
    (navLanguage : String) (doc : Doc) : Doc :=
  match result with
  | .ok translations => setLanguage (chooseLanguage translations navLanguage) translations doc
  | .error _e => doc

/- ------------------------------------------------------------------
Concrete demo data (used by witnesses)
------------------------------------------------------------------ -/

/-- The three dropdown options as shipped in the markup. -/
def demoOptions : List ThemeOption :=
  [⟨"light", false⟩, ⟨"dark", false⟩, ⟨"system", true⟩]

/-- A concrete state with the preference persisted as `system`. -/
def demoSystemSt : St :=
  { dataTheme := "light", themeIconText := "brightness_auto", themeIconFill := true,
    options := demoOptions, storage := some "system", visible := false,
    showDropdown := false, lastScrollY := 0 }

/-- A concrete state with an explicit persisted preference `dark`. -/
def demoDarkSt : St := { demoSystemSt with storage := some "dark" }

/-- A concrete state in mid-scroll: baseline 120, dropdown open. -/
def demoScrollSt : St := { demoSystemSt with lastScrollY := 120, showDropdown := true }

/-- A concrete state whose stored preference is an unrecognized string. -/
def demoFooSt : St := { demoSystemSt with storage := some "foo" }

/-- A concrete state with no stored preference. -/
def demoNoneSt : St := { demoSystemSt with storage := none }

/-- A concrete translation map with entries for `en` and `zh-TW`. -/
def demoTranslations : Translations :=
  [("en", [("title", "Hello")]), ("zh-TW", [("title", "Ni hao")])]

/-- A concrete document: one translatable element whose key exists in the
map and one whose key is missing. -/
def demoDoc : Doc :=
  { lang := "en", elems := [⟨"title", "Hello"⟩, ⟨"missing", "Shipped"⟩] }

/- ------------------------------------------------------------------
Helper lemmas
------------------------------------------------------------------ -/

lemma applyTheme_dataTheme (p : String) (d a : Bool) (st : St) :
    (applyTheme p d a st).dataTheme =
      if p = "system" then (if d then "dark" else "light") else p := by
  simp only [applyTheme]
  split <;> rfl

lemma applyTheme_themeIconText (p : String) (d a : Bool) (st : St) :
    (applyTheme p d a st).themeIconText =
      if p = "system" then "brightness_auto"
      else if p = "dark" then "dark_mode" else "light_mode" := by
  simp only [applyTheme]
  split <;> rfl

lemma applyTheme_storage (p : String) (d a : Bool) (st : St) :
    (applyTheme p d a st).storage = some p := by
  simp only [applyTheme]

lemma applyTheme_themeIconFill (p : String) (d a : Bool) (st : St) :
    (applyTheme p d a st).themeIconFill = true := by
  simp only [applyTheme]

lemma applyTheme_options (p : String) (d a : Bool) (st : St) :
    (applyTheme p d a st).options = setFirstFill (clearFills st.options) p := by
  simp only [applyTheme]
  split <;> rfl

lemma applyTheme_visible (p : String) (d a : Bool) (st : St) :
    (applyTheme p d a st).visible = st.visible := by
  simp only [applyTheme]
  split <;> rfl

lemma applyTheme_showDropdown (p : String) (d a : Bool) (st : St) :
    (applyTheme p d a st).showDropdown = st.showDropdown := by
  simp only [applyTheme]
  split <;> rfl

lemma applyTheme_lastScrollY (p : String) (d a : Bool) (st : St) :
    (applyTheme p d a st).lastScrollY = st.lastScrollY := by
  simp only [applyTheme]
  split <;> rfl

lemma clearFills_cons (o : ThemeOption) (rest : List ThemeOption) :
    clearFills (o :: rest) = { o with fill := false } :: clearFills rest := rfl

lemma clearFills_filter_fill (l : List ThemeOption) :
    (clearFills l).filter (fun o => o.fill) = [] := by
  induction l with
  | nil => rfl
  | cons o rest ih => simpa [clearFills_cons, List.filter_cons] using ih

lemma setFirstFill_clear_filter (p : String) (l : List ThemeOption) :
    p ∈ l.map ThemeOption.dataTheme →
      ((setFirstFill (clearFills l) p).filter (fun o => o.fill)).map
        ThemeOption.dataTheme = [p] := by
  induction l with
  | nil =>
      intro h
      simp at h
  | cons o rest ih =>
      intro hmem
      rw [clearFills_cons]
      by_cases h : o.dataTheme = p
      · simp [setFirstFill, h, List.filter_cons, clearFills_filter_fill]
      · have hmem2 : p ∈ rest.map ThemeOption.dataTheme := by
          rw [List.map_cons, List.mem_cons] at hmem
          rcases hmem with h1 | h1
          · exact absurd h1.symm h
          · exact h1
        simp [setFirstFill, h, List.filter_cons, ih hmem2]

lemma clearFills_clearFills (l : List ThemeOption) :
    clearFills (clearFills l) = clearFills l := by
  induction l with
  | nil => rfl
  | cons o rest ih => simp [clearFills_cons, ih]

lemma clearFills_setFirstFill (p : String) (l : List ThemeOption) :
    clearFills (setFirstFill l p) = clearFills l := by
  induction l with
  | nil => rfl
  | cons o rest ih =>
      by_cases h : o.dataTheme = p
      · simp [setFirstFill, h, clearFills_cons]
      · simp [setFirstFill, h, clearFills_cons, ih]

lemma zip_map_snd {α β : Type} (f : α → β) :
    ∀ (l : List α) (pr : α × β), pr ∈ l.zip (l.map f) → pr.2 = f pr.1 := by
  intro l
  induction l with
  | nil =>
      intro pr h
      simp at h
  | cons o rest ih =>
      intro pr h
      rw [List.map_cons, List.zip_cons_cons] at h
      rcases List.mem_cons.mp h with h1 | h1
      · subst h1
        rfl
      · exact ih pr h1

lemma translateElem_key (t : Translations) (lang : String) (el : Elem) :
    (translateElem t lang el).key = el.key := by
  unfold translateElem
  split
  · split <;> rfl
  · rfl

lemma translateElem_content_none (t : Translations) (lang : String) (el : Elem)
    (h : lookupKey t lang el.key = none) :
    translateElem t lang el = el := by
  simp [translateElem, h]

/- ------------------------------------------------------------------
Claim theorems
------------------------------------------------------------------ -/

/-- C1: `applyTheme` sets the document theme attribute as a pure function
of the preference and the OS color-scheme signal: for `system` it is the
OS-reported mode, otherwise the preference itself; the OS-change listener
re-derives the attribute when the persisted preference is `system`, and
leaves the state untouched when an explicit preference is persisted. -/
theorem applyTheme_effectiveMode_pure :
    (∀ (p : String) (d a : Bool) (st : St),
        (applyTheme p d a st).dataTheme =
          if p = "system" then (if d then "dark" else "light") else p)
    ∧ (∀ (d : Bool) (st : St), orSystem st.storage = "system" →
        (onOsChange d st).dataTheme = (if d then "dark" else "light"))
    ∧ (∀ (d : Bool) (st : St), orSystem st.storage ≠ "system" →
        onOsChange d st = st) := by
  refine ⟨fun p d a st => applyTheme_dataTheme p d a st, ?_, ?_⟩
  · intro d st h
    simp [onOsChange, h, applyTheme_dataTheme]
  · intro d st h
    simp [onOsChange, h]

/-- Witness for C1 at concrete states: with `system` persisted the OS
signal flips the attribute to `dark`; with `dark` persisted the listener
is a no-op. -/
theorem applyTheme_effectiveMode_pure_witness :
    (onOsChange true demoSystemSt).dataTheme = "dark"
    ∧ onOsChange true demoDarkSt = demoDarkSt :=
  ⟨applyTheme_effectiveMode_pure.2.1 true demoSystemSt (by decide),
   applyTheme_effectiveMode_pure.2.2 true demoDarkSt (by decide)⟩

/-- C4: after `applyTheme p`, reading the preference store returns exactly
the string `p`, verbatim, for every preference including `system`. -/
theorem applyTheme_persistence_roundTrip :
    ∀ (p : String) (d a : Bool) (st : St), (applyTheme p d a st).storage = some p :=
  fun p d a st => applyTheme_storage p d a st

/-- C2: on a mobile viewport a scroll to an offset that increased past the
100-unit threshold shows the toolbar; an offset that decreased or is
at/under the threshold hides it and forces the dropdown closed; on
desktop every scroll hides it; and the scroll baseline is always updated
to the current offset. -/
theorem handleScroll_transitions :
    ∀ (cur : Nat) (st : St),
      (cur > st.lastScrollY → cur > scrollThreshold →
        (handleScroll true cur st).visible = true)
      ∧ ((cur < st.lastScrollY ∨ cur ≤ scrollThreshold) →
          (handleScroll true cur st).visible = false
          ∧ (handleScroll true cur st).showDropdown = false)
      ∧ (handleScroll false cur st).visible = false
      ∧ (∀ m : Bool, (handleScroll m cur st).lastScrollY = cur) := by
  intro cur st
  refine ⟨?_, ?_, ?_, ?_⟩
  · intro h1 h2
    simp [handleScroll, h1, h2]
  · intro h
    have hnot : ¬ (cur > st.lastScrollY ∧ cur > scrollThreshold) := by
      rcases h with h | h <;> omega
    constructor <;> simp [handleScroll, hnot, h]
  · simp [handleScroll]
  · intro m
    rfl

/-- Witness for C2: from baseline 120 a scroll to 150 shows the toolbar
and sets the baseline to 150; a scroll to 50 hides it and closes the
dropdown. -/
theorem handleScroll_transitions_witness :
    (handleScroll true 150 demoScrollSt).visible = true
    ∧ (handleScroll true 50 demoScrollSt).visible = false
    ∧ (handleScroll true 50 demoScrollSt).showDropdown = false
    ∧ (handleScroll true 150 demoScrollSt).lastScrollY = 150 :=
  ⟨(handleScroll_transitions 150 demoScrollSt).1 (by decide) (by decide),
   ((handleScroll_transitions 50 demoScrollSt).2.1 (by decide)).1,
   ((handleScroll_transitions 50 demoScrollSt).2.1 (by decide)).2,
   (handleScroll_transitions 150 demoScrollSt).2.2.2 true⟩

/-- C3: on a desktop viewport, every resize forces the toolbar hidden and
the dropdown closed, every scroll forces it hidden, and hence after any
window event handled while the viewport is desktop the toolbar is hidden:
visibility-on-desktop is unreachable under the controller's handlers. -/
theorem desktop_toolbar_never_visible :
    ∀ (st : St) (cur : Nat),
      ((handleResize false st).visible = false
        ∧ (handleResize false st).showDropdown = false)
      ∧ (handleScroll false cur st).visible = false
      ∧ (∀ e : Ev, (step false e st).visible = false) := by
  intro st cur
  refine ⟨⟨?_, ?_⟩, ?_, ?_⟩
  · simp [handleResize]
  · simp [handleResize]
  · simp [handleScroll]
  · intro e
    cases e <;> simp [step, handleResize, handleScroll]

/-- C8: when the translation fetch fails, the failure is caught and the
document is returned entirely unchanged: every tagged element keeps its
shipped content and the language attribute is untouched. -/
theorem fetchTranslations_failure_frame :
    ∀ (e navLanguage : String) (doc : Doc),
      fetchTranslations (Except.error e) navLanguage doc = doc := by
  intro e navLanguage doc
  rfl

/-- C5 counterexample: with the unrecognized string `foo` stored, the
controller does not behave as if the preference were `system`: with the
OS reporting dark, initialization sets the document theme attribute to
`foo` instead of the OS-derived `dark`. -/
theorem storedUnrecognized_not_system :
    (initTheme true demoFooSt).dataTheme = "foo"
    ∧ (applyTheme "system" true false demoFooSt).dataTheme = "dark"
    ∧ (initTheme true demoFooSt).dataTheme
        ≠ (applyTheme "system" true false demoFooSt).dataTheme := by
  refine ⟨?_, ?_, ?_⟩ <;> decide

/-- C5 amended: an absent stored value (or the empty string, the other
falsy string) defaults to `system`; a non-empty stored string — whether
recognized or not — is passed to `applyTheme` verbatim, and every
non-`system` string ends up verbatim in the document theme attribute. -/
theorem initTheme_default_amended :
    (∀ (d : Bool) (st : St), st.storage = none →
        initTheme d st = applyTheme "system" d false st)
    ∧ (∀ (d : Bool) (st : St), st.storage = some "" →
        initTheme d st = applyTheme "system" d false st)
    ∧ (∀ (d : Bool) (st : St) (v : String), st.storage = some v → v ≠ "" →
        initTheme d st = applyTheme v d false st)
    ∧ (∀ (p : String) (d a : Bool) (st : St), p ≠ "system" →
        (applyTheme p d a st).dataTheme = p) := by
  refine ⟨?_, ?_, ?_, ?_⟩
  · intro d st h
    simp [initTheme, orSystem, h]
  · intro d st h
    simp [initTheme, orSystem, h]
  · intro d st v h hv
    simp [initTheme, orSystem, h, hv]
  · intro p d a st hp
    simp [applyTheme_dataTheme, hp]

/-- Witness for the amended C5 at concrete states: absent storage
initializes as `system`; the stored string `foo` is applied verbatim and
lands verbatim in the attribute. -/
theorem initTheme_default_amended_witness :
    initTheme true demoNoneSt = applyTheme "system" true false demoNoneSt
    ∧ initTheme true demoFooSt = applyTheme "foo" true false demoFooSt
    ∧ (applyTheme "foo" true true demoSystemSt).dataTheme = "foo" :=
  ⟨initTheme_default_amended.1 true demoNoneSt rfl,
   initTheme_default_amended.2.2.1 true demoFooSt "foo" rfl (by decide),
   initTheme_default_amended.2.2.2 "foo" true true demoSystemSt (by decide)⟩

/-- C6: after `applyTheme p`, provided some dropdown option carries the
value `p`, the filled options are exactly one, and its value is `p` —
every other option is unfilled. -/
theorem applyTheme_marksExactlyOne :
    ∀ (p : String) (d a : Bool) (st : St),
      p ∈ st.options.map ThemeOption.dataTheme →
      ((applyTheme p d a st).options.filter (fun o => o.fill)).map
        ThemeOption.dataTheme = [p] := by
  intro p d a st hmem
  rw [applyTheme_options]
  exact setFirstFill_clear_filter p st.options hmem

/-- Witness for C6: applying `dark` over the shipped three options leaves
exactly the `dark` option filled. -/
theorem applyTheme_marksExactlyOne_witness :
    ((applyTheme "dark" true true demoSystemSt).options.filter
      (fun o => o.fill)).map ThemeOption.dataTheme = ["dark"] :=
  applyTheme_marksExactlyOne "dark" true true demoSystemSt (by decide)

/-- C7: every listed regional Traditional-Chinese tag canonicalizes to
`zh-TW` and every listed Simplified-Chinese tag to `zh-CN`; lookup then
uses the canonicalized locale: present means it is selected, absent means
the selected language is exactly `en`. -/
theorem localeCanonicalization_fallback :
    (∀ l ∈ traditionalChineseLocales, canonicalLocale l = "zh-TW")
    ∧ (∀ l ∈ simplifiedChineseLocales, canonicalLocale l = "zh-CN")
    ∧ (∀ (t : Translations) (nav : String),
        (t.lookup (canonicalLocale nav)).isSome = true →
        chooseLanguage t nav = canonicalLocale nav)
    ∧ (∀ (t : Translations) (nav : String),
        (t.lookup (canonicalLocale nav)).isSome = false →
        chooseLanguage t nav = "en") := by
  refine ⟨?_, ?_, ?_, ?_⟩
  · decide
  · decide
  · intro t nav h
    simp [chooseLanguage, h]
  · intro t nav h
    simp [chooseLanguage, h]

/-- Witness for C7: `zh-Hant-HK` canonicalizes to `zh-TW` and, the demo
map holding `zh-TW`, selects it; `fr` is absent so `en` is selected. -/
theorem localeCanonicalization_fallback_witness :
    canonicalLocale "zh-Hant-HK" = "zh-TW"
    ∧ canonicalLocale "zh-Hans-SG" = "zh-CN"
    ∧ chooseLanguage demoTranslations "zh-Hant-HK" = "zh-TW"
    ∧ chooseLanguage demoTranslations "fr" = "en" :=
  ⟨localeCanonicalization_fallback.1 "zh-Hant-HK" (by decide),
   localeCanonicalization_fallback.2.1 "zh-Hans-SG" (by decide),
   localeCanonicalization_fallback.2.2.1 demoTranslations "zh-Hant-HK" (by decide),
   localeCanonicalization_fallback.2.2.2 demoTranslations "fr" (by decide)⟩

/-- C9: `applyTheme` is idempotent — with a fixed OS color-scheme signal,
applying the same preference twice in succession yields exactly the state
of applying it once (same document theme attribute, indicator glyph, and
filled dropdown option). -/
theorem applyTheme_idempotent :
    ∀ (p : String) (d a b : Bool) (st : St),
      applyTheme p d a (applyTheme p d b st) = applyTheme p d b st := by
  intro p d a b st
  refine St.ext ?_ ?_ ?_ ?_ ?_ ?_ ?_ ?_
  · simp [applyTheme_dataTheme]
  · simp [applyTheme_themeIconText]
  · simp [applyTheme_themeIconFill]
  · simp [applyTheme_options, clearFills_setFirstFill, clearFills_clearFills]
  · simp [applyTheme_storage]
  · simp [applyTheme_visible]
  · simp [applyTheme_showDropdown]
  · simp [applyTheme_lastScrollY]

/-- C10: `setLanguage` always sets the document language to the selected
one and keeps the element list's length; element-wise, keys are
untouched, an element whose key has no entry in the selected language's
map is left entirely unchanged, and a content change implies the entry
existed. -/
theorem setLanguage_frame :
    ∀ (language : String) (t : Translations) (doc : Doc),
      (setLanguage language t doc).lang = language
      ∧ (setLanguage language t doc).elems.length = doc.elems.length
      ∧ (∀ pr ∈ doc.elems.zip (setLanguage language t doc).elems,
          pr.2.key = pr.1.key
          ∧ (lookupKey t language pr.1.key = none → pr.2 = pr.1)
          ∧ (pr.2.content ≠ pr.1.content →
              (lookupKey t language pr.1.key).isSome = true)) := by
  intro language t doc
  refine ⟨rfl, by simp [setLanguage], ?_⟩
  intro pr hpr
  have h2 : pr.2 = translateElem t language pr.1 :=
    zip_map_snd (translateElem t language) doc.elems pr (by simpa [setLanguage] using hpr)
  refine ⟨?_, ?_, ?_⟩
  · rw [h2, translateElem_key]
  · intro hn
    rw [h2, translateElem_content_none t language pr.1 hn]
  · intro hne
    rcases hlk : lookupKey t language pr.1.key with _ | v
    · exact absurd (by rw [h2, translateElem_content_none t language pr.1 hlk]) hne
    · simp

/-- Witness for C10 on the demo document: the language attribute is set,
and the element whose content changed had an entry in the map. -/
theorem setLanguage_frame_witness :
    (setLanguage "zh-TW" demoTranslations demoDoc).lang = "zh-TW"
    ∧ (lookupKey demoTranslations "zh-TW" "title").isSome = true :=
  ⟨(setLanguage_frame "zh-TW" demoTranslations demoDoc).1,
   ((setLanguage_frame "zh-TW" demoTranslations demoDoc).2.2
      ⟨⟨"title", "Hello"⟩, ⟨"title", "Ni hao"⟩⟩ (by decide)).2.2 (by decide)⟩

end PersonalSite
